import Mathlib

/-!
# voltaic-tracker: ingestion pipeline

A shallow embedding of the three Go sources of the repository

* `gateway/internal/database/sqlite.go` (the score store),
* `gateway/main.go` (the gateway handlers),
* `cv-service/main.go` (the scoring service),

followed by theorems about them.

Modelling conventions.

* The SQLite table `scores` is a list of rows in insertion (rowid) order, together with
  the `AUTOINCREMENT` high-water mark kept in `sqlite_sequence`.
* A `time.Time` value is an instant together with the UTC offset of the zone in force;
  `time.Now()` is an input of the operation that calls it. The SQLite driver stores such a
  value as text (local date and time followed by the offset), and `ORDER BY` compares the
  stored texts byte by byte.
* Go `int` values are `Int`: the code does no arithmetic on them.
* Go `error` values are `Option String` (`none` is `nil`).
* Everything the code obtains from outside its own process (storage faults, the HTTP
  collaborator, JSON decoding, `strconv.Atoi`, the `filetype` matcher table) is an explicit
  input.
* Handlers return, next to the final store, the trace of the observable calls they made
  (`c.JSON`, `client.Do`, `CreateScore`, `fmt.Printf`), in program order.
-/

namespace Voltaic

/-! ## `gateway/internal/database/sqlite.go` -/

/-- A `time.Time` value as the store sees it: the instant (`unix` seconds since the epoch
and `nsec` nanoseconds within the second) and `offset`, the minutes east of UTC of the zone in
force at that instant in the location of the process. -/
structure Time where
  unix : Int
  nsec : Nat
  offset : Int
deriving DecidableEq, Repr

/-- The instant `s` seconds after the epoch, in UTC. -/
def Time.utc (s : Nat) : Time := { unix := s, nsec := 0, offset := 0 }

/-- A numeral read as a time: that many seconds after the epoch, in UTC. -/
instance (n : Nat) : OfNat Time n := ⟨Time.utc n⟩

/-- Whether instant `a` is earlier than instant `b` (`a.Before(b)`). -/
def Time.Before (a b : Time) : Bool :=
  decide (a.unix < b.unix) || (decide (a.unix = b.unix) && decide (a.nsec < b.nsec))

/-- The decimal digits of `n`, padded with zeros on the left to `width` digits. -/
def pad (width n : Nat) : List Char :=
  let ds := Nat.toDigits 10 n
  List.replicate (width - ds.length) '0' ++ ds

/-- The civil date (year, month, day) of the day `days` days after 1970-01-01, in the
proleptic Gregorian calendar. -/
def civil (days : Int) : Int × Nat × Nat :=
  let z := days + 719468
  let era := z / 146097
  let doe := (z % 146097).toNat
  let yoe := (doe - doe / 1460 + doe / 36524 - doe / 146096) / 365
  let doy := doe - (365 * yoe + yoe / 4 - yoe / 100)
  let mp := (5 * doy + 2) / 153
  let d := doy - (153 * mp + 2) / 5 + 1
  let m := if mp < 10 then mp + 3 else mp - 9
  let y := (yoe : Int) + era * 400 + (if m ≤ 2 then 1 else 0)
  (y, m, d)

/-- The layout element `.999999999`: nothing for a whole second, otherwise a dot and the
nanoseconds without trailing zeros. -/
def fraction (nsec : Nat) : List Char :=
  if nsec % 1000000000 = 0 then []
  else '.' :: ((pad 9 (nsec % 1000000000)).reverse.dropWhile (fun c => c == '0')).reverse

/-- The layout element `-07:00`: sign, hours and minutes of the offset. -/
def zone (offset : Int) : List Char :=
  (if offset < 0 then '-' else '+') ::
    (pad 2 (offset.natAbs / 60) ++ ':' :: pad 2 (offset.natAbs % 60))

/-- The text the driver `go-sqlite3` binds for a `time.Time` argument:
`t.Format("2006-01-02 15:04:05.999999999-07:00")`, the date and time of the wall clock in
the zone of `t`, followed by the offset of that zone. -/
def sqliteText (t : Time) : String :=
  let wall := t.unix + t.offset * 60
  let (y, m, d) := civil (wall / 86400)
  let secs := (wall % 86400).toNat
  String.mk
    ((if y < 0 then ['-'] else []) ++ pad 4 y.natAbs ++ '-' :: pad 2 m ++ '-' :: pad 2 d ++
      ' ' :: pad 2 (secs / 3600) ++ ':' :: pad 2 (secs % 3600 / 60) ++ ':' :: pad 2 (secs % 60) ++
      fraction t.nsec ++ zone t.offset)

/-- The comparison of two stored texts under SQLite's default collation `BINARY`: byte by
byte, a proper initial segment being the smaller. -/
def textLess : List Char → List Char → Bool
  | [], [] => false
  | [], _ :: _ => true
  | _ :: _, [] => false
  | a :: as, b :: bs => decide (a.toNat < b.toNat) || (a.toNat == b.toNat && textLess as bs)

/-- The struct `database.Score`. In a row of the table, `ProcessedAt` stands for the text
`sqliteText ProcessedAt` held in column `processed_at`, which `rows.Scan` parses back to the
same instant and offset. -/
structure Score where
  ID : Int
  Scenario : String
  Score : Int
  ProcessedAt : Time
deriving DecidableEq, Repr

/-- The state behind `Queries.db`: the rows of table `scores` in rowid order and the largest
rowid ever handed out (`AUTOINCREMENT` never reuses an id). -/
structure DB where
  rows : List Score
  seq : Int
deriving DecidableEq, Repr

/-- The store right after `InitDB` on a fresh file. -/
def emptyDB : DB := { rows := [], seq := 0 }

/-- Storage faults of one prepared-statement operation: the error returned by
`q.db.Prepare`, and the error returned by `stmt.Exec`. -/
structure Fault where
  prepare : Option String
  exec : Option String
deriving DecidableEq, Repr

/-- No storage fault. -/
def noFault : Fault := { prepare := none, exec := none }

/-- Whether the operation meets no storage fault. -/
def Fault.ok (f : Fault) : Bool := f.prepare.isNone && f.exec.isNone

/-- `Queries.CreateScore`: `INSERT INTO scores(scenario, score, processed_at) VALUES (?, ?, ?)`
with `time.Now()` as third argument. Returns the new store and the Go `error`. -/
def CreateScore (db : DB) (fault : Fault) (now : Time) (scenario : String) (score : Int) :
    DB × Option String :=
  match fault.prepare with
  | some err => (db, some err)
  | none =>
    match fault.exec with
    | some err => (db, some err)
    | none =>
      let id := db.seq + 1
      ({ rows := db.rows ++ [{ ID := id, Scenario := scenario, Score := score, ProcessedAt := now }],
         seq := id }, none)

/-- Faults of a `SELECT`: the error of `q.db.Query`; the error that makes `rows.Next`
return false before the row with a given index of the result set is fetched (it is kept in
`rows.Err()`); and the error of `rows.Scan` on the row with a given index. -/
structure QueryFault where
  query : Option String
  next : Nat → Option String
  scan : Nat → Option String

/-- No fault while reading. -/
def noQueryFault : QueryFault := { query := none, next := fun _ => none, scan := fun _ => none }

/-- The order of `ORDER BY processed_at DESC`: row `a` may stand before row `b` when the
stored text of `a` is not smaller than that of `b`. -/
def newerFirst (a b : Score) : Prop :=
  textLess (sqliteText a.ProcessedAt).toList (sqliteText b.ProcessedAt).toList = false

instance : DecidableRel newerFirst := fun a b =>
  inferInstanceAs
    (Decidable (textLess (sqliteText a.ProcessedAt).toList (sqliteText b.ProcessedAt).toList = false))

/-- The loop `for rows.Next() { rows.Scan(...); scores = append(scores, s) }`: `i` is the
index of the next row of the result set, `acc` the slice built so far. When `rows.Next`
returns false because of an error the loop ends like at the end of the result set: the code
does not read `rows.Err()`. -/
def scanRows (fault : QueryFault) : Nat → List Score → List Score → List Score × Option String
  | _, [], acc => (acc, none)
  | i, r :: rest, acc =>
    match fault.next i with
    | some _ => (acc, none)
    | none =>
      match fault.scan i with
      | some err => ([], some err)
      | none => scanRows fault (i + 1) rest (acc ++ [r])

/-- `Queries.GetAllScores`:
`SELECT id, scenario, score, processed_at FROM scores ORDER BY processed_at DESC`.
Returns the slice (the nil slice is `[]`) and the Go `error`. -/
def GetAllScores (db : DB) (fault : QueryFault) : List Score × Option String :=
  match fault.query with
  | some err => ([], some err)
  | none => scanRows fault 0 (db.rows.insertionSort newerFirst) []

/-- `Queries.UpdateScore`: `UPDATE scores SET scenario = ?, score = ? WHERE id = ?`. -/
def UpdateScore (db : DB) (fault : Fault) (id : Int) (scenario : String) (score : Int) :
    DB × Option String :=
  match fault.prepare with
  | some err => (db, some err)
  | none =>
    match fault.exec with
    | some err => (db, some err)
    | none =>
      ({ db with rows := db.rows.map fun r =>
          if r.ID = id then { r with Scenario := scenario, Score := score } else r }, none)

/-- `Queries.DeleteScore`: `DELETE FROM scores WHERE id = ?`. -/
def DeleteScore (db : DB) (fault : Fault) (id : Int) : DB × Option String :=
  match fault.prepare with
  | some err => (db, some err)
  | none =>
    match fault.exec with
    | some err => (db, some err)
    | none => ({ db with rows := db.rows.filter fun r => r.ID ≠ id }, none)

/-! ## `gateway/main.go` -/

/-- The struct `UpdateScorePayload`. -/
structure UpdateScorePayload where
  Scenario : String
  Score : Int
deriving DecidableEq, Repr

/-- The JSON bodies the gateway writes with `c.JSON` (`gin.H` values). -/
inductive Body where
  | error (msg : String)
  | processed (message : String) (scores_found : Nat)
  | scores (scores : List Score)
  | message (msg : String)
deriving DecidableEq, Repr

/-- One call `c.JSON(status, body)`. -/
structure Response where
  status : Nat
  body : Body
deriving DecidableEq, Repr

/-- The multipart form file `screenshot` of an upload: its filename and its bytes. -/
structure Upload where
  filename : String
  content : List Nat
deriving DecidableEq, Repr

/-- The request `handleUpload` sends with `client.Do`: `POST url` with one multipart part
`image` carrying the filename and the bytes copied by `io.Copy(part, file)`. -/
structure RelayRequest where
  url : String
  filename : String
  image : List Nat
deriving DecidableEq, Repr

/-- What `client.Do` gives back: a transport error, or a response with a status code and a
body. -/
inductive RelayOutcome where
  | transportError (err : String)
  | response (status : Nat) (body : String)
deriving DecidableEq, Repr

/-- The surroundings of one run of `handleUpload`. -/
structure UploadEnv where
  /-- The value of `os.Getenv("CV_SERVICE_URL")`. -/
  cvServiceURL : String
  /-- The scoring collaborator as seen through `client.Do`. -/
  collaborator : RelayRequest → RelayOutcome
  /-- The call `json.NewDecoder(resp.Body).Decode(&cvResponse)`: the decoded `Scores` field,
  or `none` on a decode error. -/
  decode : String → Option (List Score)
  /-- The storage fault met by the `i`-th call of `CreateScore` in this request. -/
  faults : Nat → Fault
  /-- The value of `time.Now()` in the `i`-th call of `CreateScore` in this request. -/
  clock : Nat → Time

/-- What one run of a gateway handler did. -/
structure Run where
  /-- The calls of `c.JSON`, in order. -/
  responses : List Response
  /-- The requests sent with `client.Do`, in order. -/
  relayed : List RelayRequest
  /-- The arguments `(scenario, score)` of the calls of `CreateScore`, in order. -/
  creates : List (String × Int)
  /-- The lines printed with `fmt.Printf`. -/
  stdout : List String
  /-- The store when the handler returns. -/
  db : DB

/-- The loop `for _, score := range cvResponse.Scores { ... }` of `handleUpload`, from the
`i`-th call of `CreateScore` on. -/
def persistScores (env : UploadEnv) : Nat → List Score → Run → Run
  | _, [], run => run
  | i, score :: rest, run =>
    let (db, err) := CreateScore run.db (env.faults i) (env.clock i) score.Scenario score.Score
    let out :=
      match err with
      | some e => run.stdout ++ ["Error saving score for " ++ score.Scenario ++ ": " ++ e ++ "\n"]
      | none => run.stdout
    persistScores env (i + 1) rest
      { run with db := db, creates := run.creates ++ [(score.Scenario, score.Score)], stdout := out }

/-- The handler `handleUpload`. `form` is the result of `c.Request.FormFile("screenshot")`
(`none` when it returns an error). -/
def handleUpload (env : UploadEnv) (form : Option Upload) (db : DB) : Run :=
  match form with
  | none =>
    { responses := [⟨400, .error "Could not get file from form"⟩],
      relayed := [], creates := [], stdout := [], db := db }
  | some file =>
    let req : RelayRequest :=
      { url := env.cvServiceURL ++ "/process", filename := file.filename, image := file.content }
    match env.collaborator req with
    | .transportError _ =>
      { responses := [⟨500, .error "Failed to process image with CV service"⟩],
        relayed := [req], creates := [], stdout := [], db := db }
    | .response status body =>
      if status ≠ 200 then
        { responses := [⟨500, .error "Failed to process image with CV service"⟩],
          relayed := [req], creates := [], stdout := [], db := db }
      else
        match env.decode body with
        | none =>
          { responses := [⟨500, .error "Failed to decode CV service response"⟩],
            relayed := [req], creates := [], stdout := [], db := db }
        | some scores =>
          let run := persistScores env 0 scores
            { responses := [], relayed := [req], creates := [], stdout := [], db := db }
          { run with responses :=
              run.responses ++ [⟨200, .processed "File processed successfully" scores.length⟩] }

/-- The handler `handleGetScores`. -/
def handleGetScores (fault : QueryFault) (db : DB) : Run :=
  match GetAllScores db fault with
  | (_, some _) =>
    { responses := [⟨500, .error "Failed to retrieve scores"⟩],
      relayed := [], creates := [], stdout := [], db := db }
  | (scores, none) =>
    { responses := [⟨200, .scores scores⟩], relayed := [], creates := [], stdout := [], db := db }

/-- The surroundings of one run of `handleUpdateScore`. -/
structure UpdateEnv where
  /-- The function `strconv.Atoi` (`none` on a parse error). -/
  atoi : String → Option Int
  /-- The call `c.ShouldBindJSON(&payload)` on the request body (`none` on a binding error). -/
  bindJSON : String → Option UpdateScorePayload
  /-- The storage fault met by `UpdateScore`. -/
  fault : Fault

/-- The handler `handleUpdateScore`. `idStr` is `c.Param("id")`, `body` the request body. -/
def handleUpdateScore (env : UpdateEnv) (idStr body : String) (db : DB) : Run :=
  match env.atoi idStr with
  | none =>
    { responses := [⟨400, .error "Invalid score ID"⟩],
      relayed := [], creates := [], stdout := [], db := db }
  | some id =>
    match env.bindJSON body with
    | none =>
      { responses := [⟨400, .error "Invalid request body"⟩],
        relayed := [], creates := [], stdout := [], db := db }
    | some payload =>
      match UpdateScore db env.fault id payload.Scenario payload.Score with
      | (db1, some err) =>
        { responses := [⟨500, .error "Failed to update score"⟩],
          relayed := [], creates := [],
          stdout := ["Error updating score ID " ++ toString id ++ ": " ++ err ++ "\n"], db := db1 }
      | (db1, none) =>
        { responses := [⟨200, .message "Score updated successfully"⟩],
          relayed := [], creates := [], stdout := [], db := db1 }

/-- One request to the gateway together with its surroundings, as routed by `main`:
`POST /upload`, `GET /scores` and `PUT /scores/:id`. -/
inductive Request where
  | upload (env : UploadEnv) (form : Option Upload)
  | getScores (fault : QueryFault)
  | updateScore (env : UpdateEnv) (idStr body : String)

/-- The routes registered in `main`. -/
def serve (db : DB) : Request → Run
  | .upload env form => handleUpload env form db
  | .getScores fault => handleGetScores fault db
  | .updateScore env idStr body => handleUpdateScore env idStr body db

/-- The store after the gateway has served the requests one after the other. -/
def serveAll (db : DB) (reqs : List Request) : DB :=
  reqs.foldl (fun db req => (serve db req).db) db

/-- The scenarios the request hands to the store are all non-empty: for an upload with a
form file, the members of the batch decoded from the collaborator's 200 reply to this very
upload (no condition when the reply is a failure or does not decode, nor on what the decoder
would yield for other bodies); for an update whose id parses, the payload its body binds to. -/
def Request.scenariosNonEmpty : Request → Prop
  | .upload env (some file) =>
    ∀ body scores,
      env.collaborator
        { url := env.cvServiceURL ++ "/process", filename := file.filename,
          image := file.content } = .response 200 body →
      env.decode body = some scores → ∀ s ∈ scores, s.Scenario ≠ ""
  | .upload _ none => True
  | .getScores _ => True
  | .updateScore env idStr body =>
    ∀ id payload, env.atoi idStr = some id → env.bindJSON body = some payload →
      payload.Scenario ≠ ""

/-! ## `cv-service/main.go` -/

namespace CV

/-- The struct `Score` of the scoring service. -/
structure Score where
  Scenario : String
  Score : Int
deriving DecidableEq, Repr

/-- The struct `types.MIME` of `github.com/h2non/filetype`. -/
structure MIME where
  Type_ : String
  Subtype : String
  Value : String
deriving DecidableEq, Repr

/-- The struct `types.Type` of `github.com/h2non/filetype`, the type of `kind`. -/
structure Kind where
  MIME : MIME
  Extension : String
deriving DecidableEq, Repr

/-- The constant `filetype.Unknown`, which the library declares as `NewType("unknown", "")`:
the extension is `unknown` and the MIME type is empty. -/
def Unknown : Kind := { MIME := { Type_ := "", Subtype := "", Value := "" }, Extension := "unknown" }

/-- The function `filetype.Match` of the library, an input of `processImage`: it maps the
header buffer to a kind and a Go `error`. -/
abbrev Matcher := List Nat → Kind × Option String

/-- The map `allowedTypes`; a key that is absent reads as `false`. -/
def allowedTypes (mime : String) : Bool :=
  if mime = "image/jpeg" then true
  else if mime = "image/png" then true
  else false

/-- A `multipart.File`: a section of bytes with a read offset, as `io.SectionReader`
implements it. `readErr` and `seekErr` are the faults `Read` and `Seek` meet, if any. -/
structure File where
  data : List Nat
  pos : Nat
  readErr : Option String
  seekErr : Option String
  closed : Bool
deriving DecidableEq, Repr

/-- The error values of `Read`: `io.EOF` or another error. -/
inductive ReadError where
  | EOF
  | other (msg : String)
deriving DecidableEq, Repr

/-- The file as `c.Request.FormFile` hands it over: open, at offset 0. -/
def File.fresh (data : List Nat) : File :=
  { data := data, pos := 0, readErr := none, seekErr := none, closed := false }

/-- The method `Read(p)`: returns the file, the buffer `p` after the call, the number of bytes
read and the error. At the end of the data it reads nothing and returns `io.EOF`; otherwise it
fills a prefix of `p` with the bytes left, at most `len(p)` of them. -/
def File.Read (f : File) (p : List Nat) : File × List Nat × Nat × Option ReadError :=
  match f.readErr with
  | some err => (f, p, 0, some (.other err))
  | none =>
    if f.data.length ≤ f.pos then (f, p, 0, some .EOF)
    else
      let chunk := (f.data.drop f.pos).take p.length
      ({ f with pos := f.pos + chunk.length }, chunk ++ p.drop chunk.length, chunk.length, none)

/-- The method `Seek(offset, io.SeekStart)`: returns the file, the new offset and the error. -/
def File.Seek (f : File) (offset : Nat) : File × Nat × Option String :=
  match f.seekErr with
  | some err => (f, 0, some err)
  | none => ({ f with pos := offset }, offset, none)

/-- The method `Close()`. -/
def File.Close (f : File) : File := { f with closed := true }

/-- Reading an open file from its current offset to its end (`io.ReadAll`). -/
def File.readAll (f : File) : List Nat := f.data.drop f.pos

/-- Lines 75 to 83 of `processImage`: read the first 261 bytes into `head`, then seek back to
offset 0. Returns the file, `head` and the error. -/
def sniff (file : File) : File × List Nat × Option String :=
  let head := List.replicate 261 0
  match file.Read head with
  | (file, _, _, some (.other err)) => (file, [], some ("failed to read file header: " ++ err))
  | (file, head, _, _) =>
    match file.Seek 0 with
    | (file, _, some err) => (file, head, some ("failed to reset file reader: " ++ err))
    | (file, _, none) => (file, head, none)

/-- The slice `mockScores`. -/
def mockScores : List Score :=
  [ { Scenario := "VT Adjustshot VALORANT", Score := 805 },
    { Scenario := "VT Flickspeed VALORANT", Score := 825 },
    { Scenario := "VT Angleshot VALORANT", Score := 677 } ]

/-- The function `processImage` (the `handler` argument is not used by the code). Returns the
file after the deferred `Close`, the slice of scores (the nil slice is `[]`) and the Go
`error`. -/
def processImage (filetypeMatch : Matcher) (file : File) : File × List Score × Option String :=
  match sniff file with
  | (file, _, some err) => (file.Close, [], some err)
  | (file, head, none) =>
    match filetypeMatch head with
    | (_, some err) => (file.Close, [], some ("failed to match file type: " ++ err))
    | (kind, none) =>
      if kind = Unknown ∨ allowedTypes kind.MIME.Value = false then
        (file.Close, [], some ("file type " ++ kind.MIME.Value ++ " is not allowed"))
      else
        (file.Close, mockScores, none)

/-- The bodies the scoring service writes with `c.JSON`: `gin.H{"error": msg}`, a bare JSON
string, and `gin.H{"scores": scores}`. -/
inductive Body where
  | error (msg : String)
  | text (msg : String)
  | scores (scores : List Score)
deriving DecidableEq, Repr

/-- One call `c.JSON(status, body)` of the scoring service. -/
structure Response where
  status : Nat
  body : Body
deriving DecidableEq, Repr

/-- The handler `handleProcessImage`: the calls of `c.JSON` it makes, in order. `form` is the
result of `c.Request.FormFile("image")` (`none` when it returns an error). -/
def handleProcessImage (filetypeMatch : Matcher) (form : Option File) : List Response :=
  match form with
  | none => [⟨400, .error "Image file not found"⟩]
  | some img =>
    let (_, mockScores, err) := processImage filetypeMatch img
    let failure : List Response :=
      match err with
      | some _ => [⟨400, .text "failed to process image"⟩]
      | none => []
    failure ++ [⟨200, .scores mockScores⟩]

/-- A matcher table with three of the library's signatures, tried in this order: JPEG
(`FF D8 FF`), PNG (`89 50 4E 47`) and PDF (`25 50 44 46`); any other buffer is `Unknown`. -/
def signatureMatch : Matcher := fun buf =>
  match buf with
  | 0xFF :: 0xD8 :: 0xFF :: _ =>
    ({ MIME := { Type_ := "image", Subtype := "jpeg", Value := "image/jpeg" }, Extension := "jpg" }, none)
  | 0x89 :: 0x50 :: 0x4E :: 0x47 :: _ =>
    ({ MIME := { Type_ := "image", Subtype := "png", Value := "image/png" }, Extension := "png" }, none)
  | 0x25 :: 0x50 :: 0x44 :: 0x46 :: _ =>
    ({ MIME := { Type_ := "application", Subtype := "pdf", Value := "application/pdf" },
       Extension := "pdf" }, none)
  | _ => (Unknown, none)

/-- The header buffer in the words of the specification: the leading bytes of the stream, at
most 261 of them, padded with zero bytes to 261 bytes. -/
def header (data : List Nat) : List Nat :=
  data.take 261 ++ List.replicate (261 - data.length) 0

/-- Whether the characters `text` begin with the characters `part`. -/
def startsWith : List Char → List Char → Bool
  | _, [] => true
  | [], _ :: _ => false
  | c :: cs, p :: ps => c == p && startsWith cs ps

/-- Whether the text `part` occurs somewhere in `text`. -/
def occursIn (part text : String) : Bool :=
  text.toList.tails.any fun rest => startsWith rest part.toList

end CV

/-! ## Sample inputs -/

/-- A decoded batch of three scores. -/
def sampleBatch : List Score :=
  [⟨0, "VT Adjustshot VALORANT", 805, 0⟩, ⟨0, "VT Flickspeed VALORANT", 825, 0⟩,
   ⟨0, "VT Angleshot VALORANT", 677, 0⟩]

/-- Surroundings in which the collaborator answers 200 with `sampleBatch` and the second
insert meets a storage fault. -/
def secondInsertFails : UploadEnv :=
  { cvServiceURL := "http://cv-service:8081",
    collaborator := fun _ => .response 200 "scores",
    decode := fun _ => some sampleBatch,
    faults := fun i => if i = 1 then ⟨none, some "database is locked"⟩ else noFault,
    clock := fun i => Time.utc (100 + i) }

/-- Surroundings in which the collaborator answers with the given status. -/
def answersWith (status : Nat) : UploadEnv :=
  { secondInsertFails with collaborator := fun _ => .response status "failed to process image" }

/-- Surroundings in which the collaborator answers 200 with one score whose scenario is the
empty string, and storage is healthy. -/
def blankScenario : UploadEnv :=
  { cvServiceURL := "http://cv-service:8081",
    collaborator := fun _ => .response 200 "scores",
    decode := fun _ => some [⟨0, "", 1, 0⟩],
    faults := fun _ => noFault,
    clock := fun i => Time.utc (100 + i) }

/-- An upload whose bytes start with the PNG signature. -/
def pngUpload : Upload := ⟨"shot.png", [0x89, 0x50, 0x4E, 0x47, 0x0D, 0x0A, 0x1A, 0x0A]⟩

/-- An upload whose bytes start with the PDF header. -/
def pdfUpload : Upload := ⟨"doc.pdf", [0x25, 0x50, 0x44, 0x46, 0x2D, 0x31, 0x2E, 0x37]⟩

/-- Surroundings in which the collaborator answers 200 with the body `scores`, and the
decoder reads `sampleBatch` from that body and a score with the empty scenario from every other
body. -/
def bodySensitive : UploadEnv :=
  { secondInsertFails with
    decode := fun body => if body = "scores" then some sampleBatch else some [⟨0, "", 1, 0⟩] }

/-- Surroundings of an update in which the id `1` parses, the body `rename` binds to a payload
with a scenario, and every other body binds to a payload with the empty scenario. -/
def renameOnly : UpdateEnv :=
  { atoi := fun idStr => if idStr = "1" then some 1 else none,
    bindJSON := fun body => if body = "rename" then some ⟨"VT Pasu", 900⟩ else some ⟨"", 0⟩,
    fault := noFault }

/-- An upload answered with `sampleBatch`, followed by an update of the row with id 1. -/
def sampleRequests : List Request :=
  [.upload bodySensitive (some pngUpload), .updateScore renameOnly "1" "rename"]

/-! ## The score store -/

theorem scanRows_noFault (rows : List Score) :
    ∀ (i : Nat) (acc : List Score), scanRows noQueryFault i rows acc = (acc ++ rows, none) := by
  induction rows with
  | nil => intro i acc; simp [scanRows]
  | cons r rest ih =>
    intro i acc
    unfold scanRows
    simp only [noQueryFault]
    have := ih (i + 1) (acc ++ [r])
    simpa [noQueryFault] using this

theorem GetAllScores_noFault (db : DB) :
    GetAllScores db noQueryFault = (db.rows.insertionSort newerFirst, none) := by
  unfold GetAllScores
  have h := scanRows_noFault (db.rows.insertionSort newerFirst) 0 []
  simpa [noQueryFault] using h

theorem textLess_asymm : ∀ a b : List Char, textLess a b = true → textLess b a = false
  | [], [], h => by simp [textLess] at h
  | [], _ :: _, _ => by simp [textLess]
  | _ :: _, [], h => by simp [textLess] at h
  | a :: as, b :: bs, h => by
    simp only [textLess, Bool.or_eq_true, decide_eq_true_eq, Bool.and_eq_true, beq_iff_eq] at h
    simp only [textLess, Bool.or_eq_false_iff, decide_eq_false_iff_not, Bool.and_eq_false_imp,
      beq_iff_eq]
    rcases h with h | ⟨h1, h2⟩
    · exact ⟨by omega, fun hc => by omega⟩
    · exact ⟨by omega, fun _ => textLess_asymm as bs h2⟩

theorem textLess_trans : ∀ a b c : List Char,
    textLess a b = false → textLess b c = false → textLess a c = false
  | [], [], _, _, h2 => h2
  | [], _ :: _, _, h1, _ => by simp [textLess] at h1
  | _ :: _, _, [], _, _ => by simp [textLess]
  | _ :: _, [], _ :: _, _, h2 => by simp [textLess] at h2
  | a :: as, b :: bs, c :: cs, h1, h2 => by
    simp only [textLess, Bool.or_eq_false_iff, decide_eq_false_iff_not, Bool.and_eq_false_imp,
      beq_iff_eq] at h1 h2 ⊢
    refine ⟨by omega, fun hac => ?_⟩
    have hab : a.toNat = b.toNat := by omega
    have hbc : b.toNat = c.toNat := by omega
    exact textLess_trans as bs cs (h1.2 hab) (h2.2 hbc)

instance : IsTotal Score newerFirst :=
  ⟨fun a b => by
    unfold newerFirst
    cases h : textLess (sqliteText a.ProcessedAt).toList (sqliteText b.ProcessedAt).toList with
    | false => exact Or.inl rfl
    | true => exact Or.inr (textLess_asymm _ _ h)⟩

instance : IsTrans Score newerFirst :=
  ⟨fun _ _ _ hab hbc => textLess_trans _ _ _ hab hbc⟩

theorem GetAllScores_text_order (db : DB) :
    (GetAllScores db noQueryFault).2 = none ∧
    (GetAllScores db noQueryFault).1.Perm db.rows ∧
    (GetAllScores db noQueryFault).1.Pairwise fun a b =>
      textLess (sqliteText a.ProcessedAt).toList (sqliteText b.ProcessedAt).toList = false := by
  rw [GetAllScores_noFault]
  exact ⟨rfl, List.perm_insertionSort _ _, List.sorted_insertionSort newerFirst db.rows⟩

set_option maxRecDepth 100000 in
/-- C7, evaluated on the code. A store holds one row written at 2024-04-06 13:30:00 UTC in a
zone 13 hours east of UTC; forty minutes later, after the zone has fallen back to 12 hours
east, `CreateScore` succeeds. The stored text of the later row is the smaller one, so
`GetAllScores` returns the older row first: the result is not in descending order of
`ProcessedAt` and the new row is not at the front. Further, when `rows.Next` fails before the
second row of a store with two rows, `GetAllScores` returns the first row alone and no
error. -/
theorem GetAllScores_offset_change :
    sqliteText ⟨1712410200, 0, 780⟩ = "2024-04-07 02:30:00+13:00" ∧
    sqliteText ⟨1712412600, 0, 720⟩ = "2024-04-07 02:10:00+12:00" ∧
    Time.Before ⟨1712410200, 0, 780⟩ ⟨1712412600, 0, 720⟩ = true ∧
    CreateScore ⟨[⟨1, "first", 10, ⟨1712410200, 0, 780⟩⟩], 1⟩ noFault ⟨1712412600, 0, 720⟩
        "second" 20 =
      (⟨[⟨1, "first", 10, ⟨1712410200, 0, 780⟩⟩, ⟨2, "second", 20, ⟨1712412600, 0, 720⟩⟩], 2⟩,
        none) ∧
    GetAllScores
        (CreateScore ⟨[⟨1, "first", 10, ⟨1712410200, 0, 780⟩⟩], 1⟩ noFault ⟨1712412600, 0, 720⟩
          "second" 20).1 noQueryFault =
      ([⟨1, "first", 10, ⟨1712410200, 0, 780⟩⟩, ⟨2, "second", 20, ⟨1712412600, 0, 720⟩⟩], none) ∧
    GetAllScores ⟨[⟨1, "a", 10, 9⟩, ⟨2, "b", 20, 5⟩], 2⟩
        { query := none, next := fun i => if i = 1 then some "interrupted" else none,
          scan := fun _ => none } =
      ([⟨1, "a", 10, 9⟩], none) := by
  decide

theorem UpdateScore_absent (db : DB) (id : Int) (scenario : String) (value : Int)
    (h : ∀ r ∈ db.rows, r.ID ≠ id) :
    UpdateScore db noFault id scenario value = (db, none) := by
  have hmap : db.rows.map (fun r =>
      if r.ID = id then { r with Scenario := scenario, Score := value } else r) = db.rows := by
    conv_rhs => rw [← List.map_id db.rows]
    apply List.map_congr_left
    intro r hr
    simp [h r hr]
  simp [UpdateScore, noFault, hmap]

/-- C6. When no row of the store has the given id and storage is healthy, `UpdateScore`
returns no error and leaves the store as it was: no row is created, every row is unchanged and
`GetAllScores` returns what it returned before. The handler of `PUT /scores/:id`, for an id
string that parses to this id and a body that binds, responds once, with status 200 and the
message "Score updated successfully", and leaves the store as it was. -/
theorem UpdateScore_absent_id_noop (db : DB) (id : Int) (scenario : String) (value : Int)
    (h : ∀ r ∈ db.rows, r.ID ≠ id) :
    (UpdateScore db noFault id scenario value).2 = none ∧
    (UpdateScore db noFault id scenario value).1 = db ∧
    GetAllScores (UpdateScore db noFault id scenario value).1 noQueryFault =
      GetAllScores db noQueryFault ∧
    (GetAllScores (UpdateScore db noFault id scenario value).1 noQueryFault).1.length =
      db.rows.length ∧
    (∀ (env : UpdateEnv) (idStr body : String),
      env.atoi idStr = some id → env.bindJSON body = some ⟨scenario, value⟩ →
      env.fault = noFault →
      (handleUpdateScore env idStr body db).responses =
        [⟨200, .message "Score updated successfully"⟩] ∧
      (handleUpdateScore env idStr body db).db = db) := by
  have hu := UpdateScore_absent db id scenario value h
  refine ⟨by rw [hu], by rw [hu], by rw [hu], ?_, ?_⟩
  · rw [hu, GetAllScores_noFault]
    exact (List.perm_insertionSort _ _).length_eq
  · intro env idStr body hid hbind hfault
    simp [handleUpdateScore, hid, hbind, hfault, hu]

/-- C6, at a store with rows 1 and 2 and an update of id 7. -/
theorem UpdateScore_absent_id_noop_witness :
    (UpdateScore ⟨[⟨1, "a", 10, 5⟩, ⟨2, "b", 20, 9⟩], 2⟩ noFault 7 "z" 99).2 = none ∧
    (UpdateScore ⟨[⟨1, "a", 10, 5⟩, ⟨2, "b", 20, 9⟩], 2⟩ noFault 7 "z" 99).1 =
      ⟨[⟨1, "a", 10, 5⟩, ⟨2, "b", 20, 9⟩], 2⟩ :=
  let h := UpdateScore_absent_id_noop ⟨[⟨1, "a", 10, 5⟩, ⟨2, "b", 20, 9⟩], 2⟩ 7 "z" 99 (by decide)
  ⟨h.1, h.2.1⟩

/-! ## The upload path of the gateway -/

theorem CreateScore_ok (db : DB) (fault : Fault) (now : Time) (scenario : String) (score : Int)
    (h : fault.ok = true) :
    CreateScore db fault now scenario score =
      ({ rows := db.rows ++
          [{ ID := db.seq + 1, Scenario := scenario, Score := score, ProcessedAt := now }],
         seq := db.seq + 1 }, none) := by
  unfold CreateScore
  cases hp : fault.prepare with
  | some err => simp [Fault.ok, hp] at h
  | none =>
    cases he : fault.exec with
    | some err => simp [Fault.ok, hp, he] at h
    | none => rfl

theorem CreateScore_fail (db : DB) (fault : Fault) (now : Time) (scenario : String) (score : Int)
    (h : fault.ok = false) :
    (CreateScore db fault now scenario score).1 = db := by
  unfold CreateScore
  cases hp : fault.prepare with
  | some err => rfl
  | none =>
    cases he : fault.exec with
    | some err => rfl
    | none => simp [Fault.ok, hp, he] at h

theorem persistScores_trace (env : UploadEnv) (scores : List Score) :
    ∀ (i : Nat) (run : Run),
      (persistScores env i scores run).creates =
        run.creates ++ scores.map (fun s => (s.Scenario, s.Score)) ∧
      (persistScores env i scores run).responses = run.responses ∧
      (persistScores env i scores run).relayed = run.relayed := by
  induction scores with
  | nil => intro i run; simp [persistScores]
  | cons s rest ih =>
    intro i run
    unfold persistScores
    obtain ⟨h1, h2, h3⟩ := ih (i + 1)
      { run with
        db := (CreateScore run.db (env.faults i) (env.clock i) s.Scenario s.Score).1,
        creates := run.creates ++ [(s.Scenario, s.Score)],
        stdout :=
          match (CreateScore run.db (env.faults i) (env.clock i) s.Scenario s.Score).2 with
          | some e => run.stdout ++ ["Error saving score for " ++ s.Scenario ++ ": " ++ e ++ "\n"]
          | none => run.stdout }
    refine ⟨?_, ?_, ?_⟩
    · simpa using h1
    · simpa using h2
    · simpa using h3

theorem persistScores_rows (env : UploadEnv) (scores : List Score) :
    ∀ (i : Nat) (run : Run),
      ∃ added : List Score,
        (persistScores env i scores run).db.rows = run.db.rows ++ added ∧
        added.length = ((List.range' i scores.length).filter fun j => (env.faults j).ok).length ∧
        (added.map fun r => (r.Scenario, r.Score)).Sublist
          (scores.map fun s => (s.Scenario, s.Score)) := by
  induction scores with
  | nil => intro i run; exact ⟨[], by simp [persistScores]⟩
  | cons s rest ih =>
    intro i run
    unfold persistScores
    obtain ⟨added, h1, h2, h3⟩ := ih (i + 1)
      { run with
        db := (CreateScore run.db (env.faults i) (env.clock i) s.Scenario s.Score).1,
        creates := run.creates ++ [(s.Scenario, s.Score)],
        stdout :=
          match (CreateScore run.db (env.faults i) (env.clock i) s.Scenario s.Score).2 with
          | some e => run.stdout ++ ["Error saving score for " ++ s.Scenario ++ ": " ++ e ++ "\n"]
          | none => run.stdout }
    cases hok : (env.faults i).ok with
    | true =>
      refine ⟨{ ID := run.db.seq + 1, Scenario := s.Scenario, Score := s.Score,
                ProcessedAt := env.clock i } :: added, ?_, ?_, ?_⟩
      · rw [h1]
        simp [CreateScore_ok _ _ _ _ _ hok]
      · simp [List.range', List.filter_cons, hok, h2]
      · simpa using h3
    | false =>
      refine ⟨added, ?_, ?_, ?_⟩
      · rw [h1]
        simp [CreateScore_fail _ _ _ _ _ hok]
      · simp [List.range', List.filter_cons, hok, h2]
      · simpa using h3.trans (List.sublist_cons_self _ _)

/-- C1. When the collaborator answers 200 with a body that decodes to a batch, then for every
pattern of storage faults `handleUpload` calls `CreateScore` once per member of the batch, in
batch order; it responds once, with status 200 and `scores_found` equal to the length of the
batch; and the store keeps its rows and gains one row for each insert that met no fault, the
new rows carrying scenarios and scores of the batch in batch order. -/
theorem handleUpload_persists_each (env : UploadEnv) (file : Upload) (db : DB)
    (body : String) (scores : List Score)
    (hresp : env.collaborator
      { url := env.cvServiceURL ++ "/process", filename := file.filename,
        image := file.content } = .response 200 body)
    (hdec : env.decode body = some scores) :
    (handleUpload env (some file) db).creates = scores.map (fun s => (s.Scenario, s.Score)) ∧
    (handleUpload env (some file) db).responses =
      [⟨200, .processed "File processed successfully" scores.length⟩] ∧
    ∃ added : List Score,
      (handleUpload env (some file) db).db.rows = db.rows ++ added ∧
      added.length = ((List.range scores.length).filter fun i => (env.faults i).ok).length ∧
      (added.map fun r => (r.Scenario, r.Score)).Sublist
        (scores.map fun s => (s.Scenario, s.Score)) := by
  have htrace := persistScores_trace env scores 0
    { responses := [], relayed := [⟨env.cvServiceURL ++ "/process", file.filename, file.content⟩],
      creates := [], stdout := [], db := db }
  have hrows := persistScores_rows env scores 0
    { responses := [], relayed := [⟨env.cvServiceURL ++ "/process", file.filename, file.content⟩],
      creates := [], stdout := [], db := db }
  simp only [handleUpload, hresp, hdec]
  obtain ⟨h1, h2, _⟩ := htrace
  obtain ⟨added, h4, h5, h6⟩ := hrows
  refine ⟨by simpa using h1, by simp [h2], added, by simpa using h4, ?_, h6⟩
  rw [h5, List.range_eq_range']

/-- C1, at a batch of three scores whose second insert fails: `scores_found` is 3 and the
store gains exactly 2 rows. -/
theorem handleUpload_persists_each_witness :
    (handleUpload secondInsertFails (some pngUpload) emptyDB).responses =
      [⟨200, .processed "File processed successfully" 3⟩] ∧
    ∃ added : List Score,
      (handleUpload secondInsertFails (some pngUpload) emptyDB).db.rows = emptyDB.rows ++ added ∧
      added.length = 2 := by
  obtain ⟨_, h2, added, h3, h4, _⟩ :=
    handleUpload_persists_each secondInsertFails pngUpload emptyDB "scores" sampleBatch rfl rfl
  exact ⟨h2, added, h3, by rw [h4]; decide⟩

set_option maxRecDepth 20000 in
/-- C2, refuted as stated: `handleUpload` does not gate on the type of the upload. The bytes of
`pdfUpload` are classified as `application/pdf`, which is not on the allow-list, and
`handleUpload` still sends them to the collaborator. -/
theorem handleUpload_no_type_gate :
    ¬ ∀ (filetypeMatch : CV.Matcher) (env : UploadEnv) (file : Upload) (db : DB),
        CV.allowedTypes
          (filetypeMatch (CV.header file.content)).1.MIME.Value = false →
        (handleUpload env (some file) db).relayed = [] := by
  intro h
  have := h CV.signatureMatch (answersWith 400) pdfUpload emptyDB (by decide)
  exact absurd this (by decide)

/-- C2, amended. `handleUpload` inspects no byte of the upload: for every request that
carries the form file, whatever its bytes, it sends exactly one request to the collaborator,
to the `/process` endpoint, with the filename and all the bytes of the upload. Only a request
without the form file leads to no call; it is answered 400. -/
theorem handleUpload_relays_every_file (env : UploadEnv) (file : Upload) (db : DB) :
    (handleUpload env (some file) db).relayed =
      [{ url := env.cvServiceURL ++ "/process", filename := file.filename,
         image := file.content }] ∧
    (handleUpload env none db).relayed = [] ∧
    (handleUpload env none db).responses = [⟨400, .error "Could not get file from form"⟩] := by
  refine ⟨?_, rfl, rfl⟩
  unfold handleUpload
  cases hc : env.collaborator
      { url := env.cvServiceURL ++ "/process", filename := file.filename,
        image := file.content } with
  | transportError err => simp [hc]
  | response status body =>
    by_cases hs : status = 200
    · cases hd : env.decode body with
      | none => simp [hc, hs, hd]
      | some scores =>
        have htrace := persistScores_trace env scores 0
          { responses := [],
            relayed := [⟨env.cvServiceURL ++ "/process", file.filename, file.content⟩],
            creates := [], stdout := [], db := db }
        simp [hc, hs, hd, htrace.2.2]
    · simp [hc, hs]

/-- C3. When the call to the collaborator ends in a transport error, in a response whose
status is not 200, or in a 200 response whose body does not decode, `handleUpload` responds
once, with status 500, calls `CreateScore` not at all, and leaves the store as it was. -/
theorem handleUpload_upstream_failure (env : UploadEnv) (file : Upload) (db : DB)
    (h : (∃ err, env.collaborator
            { url := env.cvServiceURL ++ "/process", filename := file.filename,
              image := file.content } = .transportError err) ∨
         (∃ status body, env.collaborator
            { url := env.cvServiceURL ++ "/process", filename := file.filename,
              image := file.content } = .response status body ∧ status ≠ 200) ∨
         (∃ body, env.collaborator
            { url := env.cvServiceURL ++ "/process", filename := file.filename,
              image := file.content } = .response 200 body ∧ env.decode body = none)) :
    (handleUpload env (some file) db).responses.map (fun r => r.status) = [500] ∧
    (handleUpload env (some file) db).creates = [] ∧
    (handleUpload env (some file) db).db = db := by
  unfold handleUpload
  rcases h with ⟨err, h⟩ | ⟨status, body, h, hs⟩ | ⟨body, h, hd⟩
  · simp [h]
  · simp [h, hs]
  · simp [h, hd]

/-- C3, at a collaborator that answers 500: the upload is answered 500 and the store, which
held one row, is unchanged. -/
theorem handleUpload_upstream_failure_witness :
    (handleUpload (answersWith 500) (some pngUpload) ⟨[⟨1, "a", 10, 5⟩], 1⟩).responses.map
      (fun r => r.status) = [500] ∧
    (handleUpload (answersWith 500) (some pngUpload) ⟨[⟨1, "a", 10, 5⟩], 1⟩).creates = [] ∧
    (handleUpload (answersWith 500) (some pngUpload) ⟨[⟨1, "a", 10, 5⟩], 1⟩).db =
      ⟨[⟨1, "a", 10, 5⟩], 1⟩ :=
  handleUpload_upstream_failure (answersWith 500) pngUpload ⟨[⟨1, "a", 10, 5⟩], 1⟩
    (Or.inr (Or.inl ⟨500, "failed to process image", rfl, by decide⟩))

/-! ## Scenarios held by the store -/

theorem handleUpload_scenarios (env : UploadEnv) (form : Option Upload) (db : DB)
    (hne : (Request.upload env form).scenariosNonEmpty)
    (hdb : ∀ r ∈ db.rows, r.Scenario ≠ "") :
    ∀ r ∈ (handleUpload env form db).db.rows, r.Scenario ≠ "" := by
  cases form with
  | none => simpa [handleUpload] using hdb
  | some file =>
    unfold handleUpload
    cases hc : env.collaborator
        { url := env.cvServiceURL ++ "/process", filename := file.filename,
          image := file.content } with
    | transportError err => simpa [hc] using hdb
    | response status body =>
      by_cases hs : status = 200
      · cases hd : env.decode body with
        | none => simpa [hc, hs, hd] using hdb
        | some scores =>
          obtain ⟨added, h1, _, h3⟩ := persistScores_rows env scores 0
            { responses := [],
              relayed := [⟨env.cvServiceURL ++ "/process", file.filename, file.content⟩],
              creates := [], stdout := [], db := db }
          simp only [hc, hs, hd, ne_eq, not_true_eq_false, ↓reduceIte, h1]
          intro r hr
          rcases List.mem_append.mp hr with hold | hnew
          · exact hdb r hold
          · have hmem : (r.Scenario, r.Score) ∈ scores.map (fun s => (s.Scenario, s.Score)) :=
              h3.subset (List.mem_map.mpr ⟨r, hnew, rfl⟩)
            obtain ⟨s, hs1, hs2⟩ := List.mem_map.mp hmem
            have hsc : s.Scenario = r.Scenario := congrArg Prod.fst hs2
            rw [← hsc]
            exact hne body scores (hs ▸ hc) hd s hs1
      · simpa [hc, hs] using hdb

theorem UpdateScore_scenarios (db : DB) (fault : Fault) (id : Int) (scenario : String)
    (score : Int) (hne : scenario ≠ "") (hdb : ∀ r ∈ db.rows, r.Scenario ≠ "") :
    ∀ r ∈ (UpdateScore db fault id scenario score).1.rows, r.Scenario ≠ "" := by
  unfold UpdateScore
  cases hp : fault.prepare with
  | some err => simpa using hdb
  | none =>
    cases he : fault.exec with
    | some err => simpa using hdb
    | none =>
      intro r hr
      simp only [List.mem_map] at hr
      obtain ⟨r0, hr0, hmk⟩ := hr
      by_cases hid : r0.ID = id
      · rw [if_pos hid] at hmk
        rw [← hmk]
        exact hne
      · rw [if_neg hid] at hmk
        rw [← hmk]
        exact hdb r0 hr0

theorem handleUpdateScore_scenarios (env : UpdateEnv) (idStr body : String) (db : DB)
    (hne : (Request.updateScore env idStr body).scenariosNonEmpty)
    (hdb : ∀ r ∈ db.rows, r.Scenario ≠ "") :
    ∀ r ∈ (handleUpdateScore env idStr body db).db.rows, r.Scenario ≠ "" := by
  unfold handleUpdateScore
  cases hid : env.atoi idStr with
  | none => simpa using hdb
  | some id =>
    cases hb : env.bindJSON body with
    | none => simpa using hdb
    | some payload =>
      have hu := UpdateScore_scenarios db env.fault id payload.Scenario payload.Score
        (hne id payload hid hb) hdb
      cases hres : UpdateScore db env.fault id payload.Scenario payload.Score with
      | mk db1 err =>
        rw [hres] at hu
        cases err with
        | none => simpa [hid, hb, hres] using hu
        | some e => simpa [hid, hb, hres] using hu

theorem handleGetScores_db (fault : QueryFault) (db : DB) :
    (handleGetScores fault db).db = db := by
  unfold handleGetScores
  cases hres : GetAllScores db fault with
  | mk scores err =>
    cases err with
    | none => rfl
    | some e => rfl

theorem serveAll_scenarios (reqs : List Request) :
    ∀ db : DB, (∀ req ∈ reqs, req.scenariosNonEmpty) → (∀ r ∈ db.rows, r.Scenario ≠ "") →
      ∀ r ∈ (serveAll db reqs).rows, r.Scenario ≠ "" := by
  induction reqs with
  | nil => intro db _ hdb; simpa [serveAll] using hdb
  | cons req rest ih =>
    intro db hreqs hdb
    have hstep : ∀ r ∈ (serve db req).db.rows, r.Scenario ≠ "" := by
      have hreq := hreqs req (List.mem_cons_self _ _)
      cases req with
      | upload env form => exact handleUpload_scenarios env form db hreq hdb
      | getScores fault =>
        simp only [serve, handleGetScores_db]
        exact hdb
      | updateScore env idStr body => exact handleUpdateScore_scenarios env idStr body db hreq hdb
    have := ih (serve db req).db (fun q hq => hreqs q (List.mem_cons_of_mem _ hq)) hstep
    simpa [serveAll] using this

/-- C9, refuted as stated: the gateway stores whatever scenario the collaborator returns. One
upload whose decoded batch holds a score with the empty scenario takes the empty store to a
store with a row whose scenario is empty. -/
theorem empty_scenario_reachable :
    ¬ ∀ reqs : List Request, ∀ r ∈ (serveAll emptyDB reqs).rows, r.Scenario ≠ "" := by
  intro h
  exact h [.upload blankScenario (some pngUpload)] ⟨1, "", 1, 100⟩ (by decide) rfl

/-- C9, amended. In every store state reached from the empty store through the requests of
the gateway, when every batch that was decoded from a collaborator reply holds only non-empty
scenarios and every update payload that was bound has a non-empty scenario, every stored Score
has a non-empty scenario. -/
theorem scenarios_nonempty_of_inputs (reqs : List Request)
    (h : ∀ req ∈ reqs, req.scenariosNonEmpty) :
    ∀ r ∈ (serveAll emptyDB reqs).rows, r.Scenario ≠ "" :=
  serveAll_scenarios reqs emptyDB h (by simp [emptyDB])

/-- C9 amended, at an upload answered with `sampleBatch` followed by an update of row 1, with
a decoder and a binder that yield empty scenarios for other bodies: the rows of the resulting
store have non-empty scenarios. -/
theorem scenarios_nonempty_of_inputs_witness :
    (serveAll emptyDB sampleRequests).rows.length = 2 ∧
    ((serveAll emptyDB sampleRequests).rows.all fun r => decide (r.Scenario ≠ "")) = true :=
  ⟨by decide, List.all_eq_true.mpr fun r hr => decide_eq_true
    (scenarios_nonempty_of_inputs sampleRequests (by
      intro req hreq
      simp only [sampleRequests, List.mem_cons, List.mem_singleton, List.not_mem_nil,
        or_false] at hreq
      rcases hreq with rfl | rfl
      · intro body scores hc hd s hs
        simp only [bodySensitive, secondInsertFails, RelayOutcome.response.injEq,
          true_and] at hc
        subst hc
        simp only [bodySensitive, ↓reduceIte, Option.some.injEq] at hd
        subst hd
        revert s
        decide
      · intro id payload _ hp
        simp only [renameOnly, ↓reduceIte, Option.some.injEq] at hp
        subst hp
        decide) r hr)⟩

/-! ## The scoring service -/

namespace CV

theorem sniff_healthy (f : File) (h0 : f.pos = 0) (hr : f.readErr = none)
    (hs : f.seekErr = none) : sniff f = (f, header f.data, none) := by
  obtain ⟨data, pos, readErr, seekErr, closed⟩ := f
  simp only at h0 hr hs
  subst h0 hr hs
  unfold sniff File.Read
  simp only [List.length_replicate, List.drop_zero, Nat.zero_add]
  by_cases hlen : data.length ≤ 0
  · have hnil : data = [] := List.length_eq_zero.mp (Nat.le_zero.mp hlen)
    subst hnil
    simp only [List.length_nil, Nat.le_refl, ↓reduceIte, File.Seek, header, List.take_nil,
      List.nil_append, Nat.sub_zero]
  · simp only [hlen, ↓reduceIte, File.Seek, header, List.length_take, List.drop_replicate]
    have hpad : 261 - min 261 data.length = 261 - data.length := by omega
    rw [hpad]

theorem sniff_error (f : File) (h : (sniff f).2.2 = none) :
    f.readErr = none ∧ f.seekErr = none := by
  unfold sniff File.Read at h
  cases hr : f.readErr with
  | some err =>
    simp only [hr] at h
    cases h
  | none =>
    refine ⟨rfl, ?_⟩
    cases hs : f.seekErr with
    | none => rfl
    | some err =>
      simp only [hr] at h
      by_cases hlen : f.data.length ≤ f.pos
      · simp only [hlen, ↓reduceIte, File.Seek, hs] at h
        cases h
      · simp only [hlen, ↓reduceIte, File.Seek, hs] at h
        cases h

theorem allowedTypes_iff (mime : String) :
    allowedTypes mime = true ↔ mime = "image/jpeg" ∨ mime = "image/png" := by
  unfold allowedTypes
  by_cases h1 : mime = "image/jpeg"
  · simp [h1]
  · by_cases h2 : mime = "image/png"
    · simp [h2]
    · simp [h1, h2]

theorem rejected_iff (kind : Kind) :
    (kind = Unknown ∨ allowedTypes kind.MIME.Value = false) ↔
      ¬ (kind.MIME.Value = "image/jpeg" ∨ kind.MIME.Value = "image/png") := by
  rw [← allowedTypes_iff]
  constructor
  · rintro (h | h)
    · rw [h]; decide
    · simp [h]
  · intro h
    right
    simpa using h

theorem processImage_healthy (filetypeMatch : Matcher) (f : File) (h0 : f.pos = 0)
    (hr : f.readErr = none) (hs : f.seekErr = none) :
    processImage filetypeMatch f =
      match filetypeMatch (header f.data) with
      | (_, some err) => (f.Close, [], some ("failed to match file type: " ++ err))
      | (kind, none) =>
        if kind = Unknown ∨ allowedTypes kind.MIME.Value = false then
          (f.Close, [], some ("file type " ++ kind.MIME.Value ++ " is not allowed"))
        else
          (f.Close, mockScores, none) := by
  unfold processImage
  rw [sniff_healthy f h0 hr hs]

/-- C4. For a stream at offset 0, sniffing succeeds when `Read` and `Seek` meet no fault, and
whenever it succeeds the stream is at offset 0 again with its content unchanged: reading it
to the end yields the same bytes as reading it without sniffing, namely all of its bytes. -/
theorem sniff_round_trip (f : File) (h0 : f.pos = 0) :
    (f.readErr = none → f.seekErr = none → (sniff f).2.2 = none) ∧
    ((sniff f).2.2 = none →
      (sniff f).1.pos = 0 ∧ (sniff f).1.data = f.data ∧
      (sniff f).1.readAll = f.readAll ∧ (sniff f).1.readAll = f.data) := by
  constructor
  · intro hr hs
    rw [sniff_healthy f h0 hr hs]
  · intro h
    obtain ⟨hr, hs⟩ := sniff_error f h
    rw [sniff_healthy f h0 hr hs]
    simp [File.readAll, h0]

/-- C4, at a stream that starts with the JPEG signature. -/
theorem sniff_round_trip_witness :
    (sniff (File.fresh [0xFF, 0xD8, 0xFF, 0xE0, 0x00, 0x10])).1.readAll =
      [0xFF, 0xD8, 0xFF, 0xE0, 0x00, 0x10] :=
  ((sniff_round_trip (File.fresh [0xFF, 0xD8, 0xFF, 0xE0, 0x00, 0x10]) rfl).2
    ((sniff_round_trip (File.fresh [0xFF, 0xD8, 0xFF, 0xE0, 0x00, 0x10]) rfl).1 rfl rfl)).2.2.2

theorem processImage_sniff_failed (filetypeMatch : Matcher) (f : File)
    (h : (sniff f).2.2 ≠ none) :
    (processImage filetypeMatch f).2.2 ≠ none ∧ (processImage filetypeMatch f).2.1 = [] := by
  unfold processImage
  cases hsn : sniff f with
  | mk file rest =>
    cases rest with
    | mk head err =>
      cases err with
      | none => simp [hsn] at h
      | some e => simp

/-- C5. For a stream at offset 0, `processImage` returns no error exactly when `Read` and
`Seek` meet no fault and the matcher, applied to the header buffer (the leading bytes of the
stream padded with zeros to 261 bytes), detects `image/jpeg` or `image/png`; it then returns
the score batch. In every other case it returns an error and no scores. -/
theorem processImage_allow_list (filetypeMatch : Matcher) (f : File) (h0 : f.pos = 0) :
    ((processImage filetypeMatch f).2.2 = none ↔
      (f.readErr = none ∧ f.seekErr = none ∧
        (filetypeMatch (header f.data)).2 = none ∧
        ((filetypeMatch (header f.data)).1.MIME.Value = "image/jpeg" ∨
         (filetypeMatch (header f.data)).1.MIME.Value = "image/png"))) ∧
    ((processImage filetypeMatch f).2.2 = none →
      (processImage filetypeMatch f).2.1 = mockScores) ∧
    ((processImage filetypeMatch f).2.2 ≠ none → (processImage filetypeMatch f).2.1 = []) := by
  by_cases hsn : (sniff f).2.2 = none
  · obtain ⟨hr, hs⟩ := sniff_error f hsn
    rw [processImage_healthy filetypeMatch f h0 hr hs]
    cases hm : filetypeMatch (header f.data) with
    | mk kind err =>
      cases err with
      | some e => simp
      | none =>
        by_cases hrej : kind = Unknown ∨ allowedTypes kind.MIME.Value = false
        · have hno := (rejected_iff kind).mp hrej
          simp only [if_pos hrej]
          simp [hno]
        · have hyes : kind.MIME.Value = "image/jpeg" ∨ kind.MIME.Value = "image/png" :=
            not_not.mp (mt (rejected_iff kind).mpr hrej)
          simp only [if_neg hrej]
          simp [hyes, hr, hs]
  · obtain ⟨herr, hnil⟩ := processImage_sniff_failed filetypeMatch f hsn
    refine ⟨⟨fun h => absurd h herr, fun h => ?_⟩, fun h => absurd h herr, fun _ => hnil⟩
    exact absurd (by rw [sniff_healthy f h0 h.1 h.2.1]) hsn

set_option maxRecDepth 20000 in
/-- C5, at a stream that starts with a PDF header and at a zero-length stream: both are
rejected, with an error and no scores. -/
theorem processImage_allow_list_witness :
    ((processImage signatureMatch (File.fresh pdfUpload.content)).2.2 ≠ none ∧
      (processImage signatureMatch (File.fresh pdfUpload.content)).2.1 = []) ∧
    ((processImage signatureMatch (File.fresh [])).2.2 ≠ none ∧
      (processImage signatureMatch (File.fresh [])).2.1 = []) := by
  have hpdf := processImage_allow_list signatureMatch (File.fresh pdfUpload.content) rfl
  have hempty := processImage_allow_list signatureMatch (File.fresh []) rfl
  have h1 : (processImage signatureMatch (File.fresh pdfUpload.content)).2.2 ≠ none :=
    fun h => absurd (hpdf.1.mp h).2.2.2 (by decide)
  have h2 : (processImage signatureMatch (File.fresh [])).2.2 ≠ none :=
    fun h => absurd (hempty.1.mp h).2.2.2 (by decide)
  exact ⟨⟨h1, hpdf.2.2 h1⟩, ⟨h2, hempty.2.2 h2⟩⟩

set_option maxRecDepth 20000 in
/-- C8, refuted as stated: when no signature matches, the error does not carry the text
"unknown". For the zero-length stream the matcher yields `Unknown`, whose MIME value is empty,
and the error reads "file type  is not allowed". -/
theorem rejection_text_lacks_unknown :
    ¬ ∀ (filetypeMatch : Matcher) (f : File) (err : String),
        f.pos = 0 → f.readErr = none → f.seekErr = none →
        filetypeMatch (header f.data) = (Unknown, none) →
        (processImage filetypeMatch f).2.2 = some err →
        occursIn "unknown" err = true := by
  intro h
  have := h signatureMatch (File.fresh []) "file type  is not allowed" rfl rfl rfl
    (by decide) (by decide)
  exact absurd this (by decide)

/-- C8, amended. When `processImage` rejects a stream because the matcher yields `Unknown` or a
kind outside the allow-list, it returns no scores and the error text
"file type T is not allowed", where T is the MIME value of the detected kind. When no
signature matched, T is the MIME value of `Unknown`, the empty text. -/
theorem processImage_rejection_text (filetypeMatch : Matcher) (f : File) (kind : Kind)
    (h0 : f.pos = 0) (hr : f.readErr = none) (hs : f.seekErr = none)
    (hm : filetypeMatch (header f.data) = (kind, none))
    (hrej : kind = Unknown ∨ allowedTypes kind.MIME.Value = false) :
    (processImage filetypeMatch f).2.2 =
      some ("file type " ++ kind.MIME.Value ++ " is not allowed") ∧
    (processImage filetypeMatch f).2.1 = [] ∧
    (kind = Unknown → (processImage filetypeMatch f).2.2 = some "file type  is not allowed") := by
  rw [processImage_healthy filetypeMatch f h0 hr hs, hm]
  simp only [if_pos hrej, true_and]
  intro hk
  subst hk
  decide

set_option maxRecDepth 20000 in
/-- C8 amended, at a stream that starts with a PDF header. -/
theorem processImage_rejection_text_witness :
    (processImage signatureMatch (File.fresh pdfUpload.content)).2.2 =
      some "file type application/pdf is not allowed" :=
  (processImage_rejection_text signatureMatch (File.fresh pdfUpload.content)
    { MIME := { Type_ := "application", Subtype := "pdf", Value := "application/pdf" },
      Extension := "pdf" }
    rfl rfl rfl (by decide) (by decide)).1

theorem handleProcessImage_on_error (filetypeMatch : Matcher) (img : File)
    (h : (processImage filetypeMatch img).2.2 ≠ none) :
    handleProcessImage filetypeMatch (some img) =
      [⟨400, .text "failed to process image"⟩,
       ⟨200, .scores (processImage filetypeMatch img).2.1⟩] := by
  unfold handleProcessImage
  cases hp : processImage filetypeMatch img with
  | mk file rest =>
    cases rest with
    | mk scores err =>
      cases err with
      | none => simp [hp] at h
      | some e => simp [hp]

set_option maxRecDepth 20000 in
/-- C10, evaluated on the code: for a zero-length image `processImage` returns an error, and
`handleProcessImage` writes two responses, the 400 failure and then the 200 response with the
`scores` field. -/
theorem handleProcessImage_double_write :
    (processImage signatureMatch (File.fresh [])).2.2 = some "file type  is not allowed" ∧
    handleProcessImage signatureMatch (some (File.fresh [])) =
      [⟨400, .text "failed to process image"⟩, ⟨200, .scores []⟩] := by
  decide

end CV

end Voltaic
